import Mathlib

/-!
Shallow embedding of the session-orchestration core of the Video-streaming
repository: the media-worker control service (`apps/media-worker/src/index.ts`)
and the signaling event router (`apps/signaling/src/server.ts`).

JavaScript `Map` objects are modelled as association lists with
insertion-order-preserving `setAL` (overwrite in place, append when new),
`Map.get` as `lookupAL` and `Map.delete` as `eraseAL`.  Timestamps and
the abstract values produced by the external mediasoup SDK (RTP capability
blobs, ICE/DTLS parameters) are modelled as `Nat` tokens passed in as
arguments, mirroring the fact that the handlers only move them around.
-/

/-- Model of `Map.get`: first binding of the key, if any. -/
def lookupAL {α : Type} (m : List (String × α)) (k : String) : Option α :=
  match m with
  | [] => none
  | (k', v) :: rest => if k' = k then some v else lookupAL rest k

/-- Model of `Map.set`: overwrite an existing binding in place, append a new one. -/
def setAL {α : Type} (m : List (String × α)) (k : String) (v : α) : List (String × α) :=
  match m with
  | [] => [(k, v)]
  | (k', v') :: rest => if k' = k then (k, v) :: rest else (k', v') :: setAL rest k v

/-- Model of `Map.delete`: remove every binding of the key. -/
def eraseAL {α : Type} (m : List (String × α)) (k : String) : List (String × α) :=
  match m with
  | [] => []
  | (k', v) :: rest => if k' = k then eraseAL rest k else (k', v) :: eraseAL rest k

theorem lookupAL_setAL_self {α : Type} (m : List (String × α)) (k : String) (v : α) :
    lookupAL (setAL m k v) k = some v := by
  induction m with
  | nil => simp [setAL, lookupAL]
  | cons hd tl ih =>
    obtain ⟨a, b⟩ := hd
    by_cases h : a = k
    · simp [setAL, lookupAL, h]
    · simp only [setAL, if_neg h, lookupAL]
      exact ih

theorem lookupAL_setAL_ne {α : Type} (m : List (String × α)) (k k' : String) (v : α)
    (h : k' ≠ k) : lookupAL (setAL m k v) k' = lookupAL m k' := by
  have hk : ¬ k = k' := fun hh => h hh.symm
  induction m with
  | nil =>
    simp only [setAL, lookupAL]
    rw [if_neg hk]
  | cons hd tl ih =>
    obtain ⟨a, b⟩ := hd
    by_cases ha : a = k
    · have hak : ¬ a = k' := by rw [ha]; exact hk
      simp only [setAL, if_pos ha, lookupAL]
      rw [if_neg hk, if_neg hak]
    · simp only [setAL, if_neg ha, lookupAL]
      by_cases hb : a = k'
      · rw [if_pos hb, if_pos hb]
      · rw [if_neg hb, if_neg hb, ih]

theorem lookupAL_eraseAL {α : Type} (m : List (String × α)) (k k' : String) :
    lookupAL (eraseAL m k) k' = if k' = k then none else lookupAL m k' := by
  induction m with
  | nil => simp [eraseAL, lookupAL]
  | cons hd tl ih =>
    obtain ⟨a, b⟩ := hd
    by_cases ha : a = k
    · rw [show eraseAL ((a, b) :: tl) k = eraseAL tl k by simp [eraseAL, ha], ih]
      by_cases hk : k' = k
      · simp [hk]
      · have hak : ¬ a = k' := by rw [ha]; exact fun hh => hk hh.symm
        rw [if_neg hk, if_neg hk]
        simp only [lookupAL]
        rw [if_neg hak]
    · rw [show eraseAL ((a, b) :: tl) k = (a, b) :: eraseAL tl k by simp [eraseAL, ha]]
      simp only [lookupAL]
      by_cases hb : a = k'
      · have hk : ¬ k' = k := by rw [← hb]; exact ha
        rw [if_pos hb, if_neg hk, if_pos hb]
      · rw [if_neg hb, ih, if_neg hb]

theorem lookupAL_eraseKeys {α : Type} (ids : List String) (m : List (String × α)) (k : String) :
    lookupAL (ids.foldl (fun acc pid => eraseAL acc pid) m) k =
      if k ∈ ids then none else lookupAL m k := by
  induction ids generalizing m with
  | nil => simp
  | cons hd tl ih =>
    simp only [List.foldl_cons, ih, lookupAL_eraseAL, List.mem_cons]
    by_cases h1 : k ∈ tl
    · simp [h1]
    · by_cases h2 : k = hd <;> simp [h1, h2]

/-! ## Media-worker control service (`apps/media-worker/src/index.ts`) -/

/-- One entry of the fixed `mediaCodecs` profile passed to `createRouter`. -/
structure MediaCodec where
  kind : String
  mimeType : String
  clockRate : Nat
  channels : Option Nat
  parameters : List (String × Nat)
deriving Repr, DecidableEq

/-- The fixed codec capability set: one audio codec, one video codec. -/
def mediaCodecs : List MediaCodec :=
  [ { kind := "audio", mimeType := "audio/opus", clockRate := 48000,
      channels := some 2, parameters := [] },
    { kind := "video", mimeType := "video/VP8", clockRate := 90000,
      channels := none, parameters := [("x-google-start-bitrate", 1000)] } ]

/-- Capabilities of a router, `router.rtpCapabilities`: derived deterministically from the fixed
codec profile, hence identical for every router this service creates. -/
def routerRtpCapabilities : List MediaCodec := mediaCodecs

/-- `RoomState` of the media worker: the router is represented by the
ordinal `routerId` of its creation, the worker by its pool index. -/
structure MWRoom where
  id : String
  workerIndex : Nat
  routerId : Nat
  createdAt : Nat
  transports : List String
  producers : List (String × String)
deriving Repr, DecidableEq

/-- Module-level mutable state of the media-worker process: the worker
pool size, the round-robin counter `nextWorkerIndex`, the number of
routers created so far, the number of consumers created so far
(`transport.consume` side effects), and the `rooms` map. -/
structure MWState where
  numWorkers : Nat
  nextWorkerIndex : Nat
  routersCreated : Nat
  consumersCreated : Nat
  rooms : List (String × MWRoom)
deriving Repr, DecidableEq

/-- Fresh process state after `createWorkers` started `n` workers. -/
def mwInit (n : Nat) : MWState :=
  { numWorkers := n, nextWorkerIndex := 0, routersCreated := 0,
    consumersCreated := 0, rooms := [] }

/-- Round-robin choice `getNextWorker`: `workers[nextWorkerIndex % workers.length]` then
`nextWorkerIndex += 1`.  Returns the pool index of the chosen worker. -/
def getNextWorker (st : MWState) : Nat × MWState :=
  (st.nextWorkerIndex % st.numWorkers, { st with nextWorkerIndex := st.nextWorkerIndex + 1 })

/-- Registry access `getOrCreateRoom`: return the existing room unchanged, otherwise
assign a worker, create a router and register the room. -/
def getOrCreateRoom (st : MWState) (roomId : String) (now : Nat) : MWRoom × MWState :=
  match lookupAL st.rooms roomId with
  | some existing => (existing, st)
  | none =>
    let (widx, st1) := getNextWorker st
    let room : MWRoom :=
      { id := roomId, workerIndex := widx, routerId := st1.routersCreated,
        createdAt := now, transports := [], producers := [] }
    (room, { st1 with routersCreated := st1.routersCreated + 1,
                      rooms := setAL st1.rooms roomId room })

/-- Payload of an HTTP response of the media-worker service. -/
inductive MWPayload where
  | roomInfo (roomId : String) (rtpCapabilities : List MediaCodec) (createdAt : Nat)
  | transportCreated (id : String) (iceParameters : Nat) (iceCandidates : Nat)
      (dtlsParameters : Nat)
  | producerCreated (id : String) (kind : String)
  | consumerCreated (id : Nat) (producerId : String) (kind : String) (rtpParameters : Nat)
  | okTrue
  | err (error : String)
deriving Repr, DecidableEq

/-- An HTTP response: status code plus JSON payload. -/
structure MWResponse where
  status : Nat
  payload : MWPayload
deriving Repr, DecidableEq

/-- Handler of `POST /rooms`: `bodyRoomId` is the body's `roomId` when it is
a string, `freshId` models the `randomUUID()` fallback. -/
def handlePostRooms (st : MWState) (bodyRoomId : Option String) (freshId : String)
    (now : Nat) : MWResponse × MWState :=
  let roomId := bodyRoomId.getD freshId
  let rs := getOrCreateRoom st roomId now
  ({ status := 201, payload := .roomInfo rs.1.id routerRtpCapabilities rs.1.createdAt },
   rs.2)

/-- The data of a `WebRtcTransport` created by the mediasoup SDK; its
negotiation parameters are abstract tokens produced outside this service. -/
structure TransportInfo where
  id : String
  iceParameters : Nat
  iceCandidates : Nat
  dtlsParameters : Nat
deriving Repr, DecidableEq

/-- Handler of `POST /rooms/{roomId}/transports`: note that it obtains the
room with `getOrCreateRoom`, creating it when absent, then registers the
SDK-created transport `newT` and answers 201. -/
def handlePostTransports (st : MWState) (roomId : String) (newT : TransportInfo)
    (now : Nat) : MWResponse × MWState :=
  let rs := getOrCreateRoom st roomId now
  let room' := { rs.1 with transports := newT.id :: rs.1.transports }
  ({ status := 201,
     payload := .transportCreated newT.id newT.iceParameters newT.iceCandidates
       newT.dtlsParameters },
   { rs.2 with rooms := setAL rs.2.rooms roomId room' })

/-- The external mediasoup calls made by the consumers handler:
`router.canConsume` and the fields of the consumer that
`transport.consume` returns. -/
structure ExtMedia where
  canConsume : String → Nat → Bool
  consumerKind : String → String
  consumerRtp : String → Nat → Nat

/-- Parsed JSON body of `POST /rooms/{roomId}/consumers`. -/
structure ConsumerBody where
  transportId : Option String
  producerId : Option String
  rtpCapabilities : Option Nat
deriving Repr, DecidableEq

/-- Handler of `POST /rooms/{roomId}/consumers`.  The checks happen in the
source order: room lookup, transport lookup, presence of `producerId`
(the empty string is falsy in JavaScript) and `rtpCapabilities`, then
`router.canConsume`; only after all of them does `transport.consume`
run, modelled by the `consumersCreated` increment. -/
def handlePostConsumers (ext : ExtMedia) (st : MWState) (roomId : String)
    (body : Option ConsumerBody) : MWResponse × MWState :=
  match lookupAL st.rooms roomId with
  | none => ({ status := 404, payload := .err "Room not found" }, st)
  | some room =>
    match body.bind (·.transportId) with
    | none => ({ status := 404, payload := .err "Transport not found" }, st)
    | some tid =>
      if tid ∈ room.transports then
        match body.bind (·.producerId), body.bind (·.rtpCapabilities) with
        | some pid, some caps =>
          if pid = "" then
            ({ status := 400, payload := .err "Missing producerId or rtpCapabilities" }, st)
          else if ext.canConsume pid caps then
            ({ status := 201,
               payload := .consumerCreated st.consumersCreated pid
                 (ext.consumerKind pid) (ext.consumerRtp pid caps) },
             { st with consumersCreated := st.consumersCreated + 1 })
          else
            ({ status := 400, payload := .err "Cannot consume" }, st)
        | _, _ =>
          ({ status := 400, payload := .err "Missing producerId or rtpCapabilities" }, st)
      else ({ status := 404, payload := .err "Transport not found" }, st)

/-- Creating a sequence of rooms one after the other, collecting the
room returned by each `getOrCreateRoom` call. -/
def createRoomsSeq (st : MWState) (ids : List String) (now : Nat) :
    List MWRoom × MWState :=
  match ids with
  | [] => ([], st)
  | id :: rest =>
    let r := getOrCreateRoom st id now
    let rest' := createRoomsSeq r.2 rest now
    (r.1 :: rest'.1, rest'.2)

/-! ## Signaling event router (`apps/signaling/src/server.ts`) -/

/-- A JSON value arriving in a socket payload field. -/
inductive JValue where
  | str (s : String)
  | num (n : Int)
  | boolean (b : Bool)
  | null
  | absent
deriving Repr, DecidableEq

/-- Participant roles. -/
inductive Role where
  | host
  | cohost
  | speaker
  | viewer
deriving Repr, DecidableEq

/-- Role coercion `sanitizeRole`: only the exact strings "host", "cohost", "speaker"
survive; everything else becomes "viewer". -/
def sanitizeRole (v : JValue) : Role :=
  match v with
  | .str s =>
    if s = "host" then .host
    else if s = "cohost" then .cohost
    else if s = "speaker" then .speaker
    else .viewer
  | _ => .viewer

/-- JavaScript `String.prototype.trim` on the code points of a string. -/
def trimText (s : String) : String :=
  String.mk (((s.data.dropWhile Char.isWhitespace).reverse.dropWhile Char.isWhitespace).reverse)

/-- Field coercion `sanitizeText`: a string value whose trim is nonempty is used
trimmed, anything else falls back. -/
def sanitizeText (v : JValue) (fallback : String) : String :=
  match v with
  | .str s => if 0 < (trimText s).length then trimText s else fallback
  | _ => fallback

/-- The authenticated identity attached to a socket, when present. -/
structure SocketAuth where
  userId : String
  name : Option String
deriving Repr, DecidableEq

/-- Record `RoomParticipant`. -/
structure Participant where
  userId : String
  socketId : String
  displayName : String
  role : Role
  raisedHand : Bool
  joinedAt : Nat
  producerIds : List String
deriving Repr, DecidableEq

/-- Record `RoomMessage`. -/
structure SigMessage where
  id : String
  roomId : String
  userId : String
  displayName : String
  message : String
  createdAt : Nat
deriving Repr, DecidableEq

/-- The producer summary kept in the signaling room's producer index. -/
structure ProducerSummary where
  id : String
  userId : String
  kind : String
deriving Repr, DecidableEq

/-- Signaling-side `RoomState`: participants keyed by socket id,
bounded message history, cached router capabilities (an abstract token)
and the producer index keyed by producer id. -/
structure SigRoom where
  participants : List (String × Participant)
  messages : List SigMessage
  rtpCapabilities : Option Nat
  producers : List (String × ProducerSummary)
deriving Repr, DecidableEq

/-- The fresh room record that `getRoomState` registers. -/
def emptySigRoom : SigRoom :=
  { participants := [], messages := [], rtpCapabilities := none, producers := [] }

/-- The signaling process state: the `rooms` map. -/
structure SigState where
  rooms : List (String × SigRoom)
deriving Repr, DecidableEq

/-- The signaling process before any event. -/
def sigEmpty : SigState := { rooms := [] }

/-- Lazy registry access `getRoomState`: return the room, creating and registering an
empty record when the lookup misses. -/
def getRoomState (st : SigState) (roomId : String) : SigRoom × SigState :=
  match lookupAL st.rooms roomId with
  | some r => (r, st)
  | none => (emptySigRoom, { rooms := setAL st.rooms roomId emptySigRoom })

/-- Events emitted towards clients.  `peerJoined`, `producerRemoved` and
`peerLeft` go to the other members of the room (socket.to), `roster`
only to the given socket, `rtpCaps` and `chat` to the whole room
including the sender (io.to). -/
inductive SigEvent where
  | peerJoined (roomId : String) (p : Participant)
  | roster (toSocket : String) (peers : List Participant) (messages : List SigMessage)
      (caps : Option Nat) (producers : List ProducerSummary)
  | rtpCaps (roomId : String) (caps : Nat)
  | producerAdded (roomId : String) (p : ProducerSummary)
  | producerRemoved (roomId : String) (producerId : String)
  | peerLeft (roomId : String) (userId : String)
  | chat (roomId : String) (m : SigMessage)
  | handRaised (roomId : String) (userId : String) (raisedHand : Bool)
deriving Repr, DecidableEq

/-- An acknowledgment passed to the client callback. -/
inductive Ack where
  | ok
  | fail (error : String)
deriving Repr, DecidableEq

/-- Payload of `room:join`. -/
structure JoinPayload where
  roomId : JValue
  userId : JValue
  displayName : JValue
  role : JValue
deriving Repr, DecidableEq

/-- Result of the synchronous segment of the `room:join` handler.
`fetchNeeded` records whether the handler, finding no cached router
capabilities, goes on to await `fetchRtpCapabilities`. -/
structure JoinOutcome where
  state : SigState
  ack : Ack
  events : List SigEvent
  fetchNeeded : Bool
deriving Repr, DecidableEq

/-- Derivation `const userId = auth?.userId ?? sanitizeText(payload?.userId, socket.id)`. -/
def joinUserId (auth : Option SocketAuth) (payload : JoinPayload) (socketId : String) :
    String :=
  match auth with
  | some a => a.userId
  | none => sanitizeText payload.userId socketId

/-- Derivation `const displayName = sanitizeText(payload?.displayName, auth?.name ?? userId)`. -/
def joinDisplayName (auth : Option SocketAuth) (payload : JoinPayload) (userId : String) :
    String :=
  sanitizeText payload.displayName ((auth.bind (·.name)).getD userId)

/-- Handler of `room:join` up to its suspension point: validates auth and
`roomId`, derives identity fields, registers a fresh participant record
under the socket id, emits the peer-joined broadcast and the roster
snapshot, and reports whether a capability fetch is issued. -/
def roomJoin (st : SigState) (socketId : String) (authRequired : Bool)
    (auth : Option SocketAuth) (payload : JoinPayload) (now : Nat) : JoinOutcome :=
  if authRequired ∧ auth = none then
    { state := st, ack := .fail "Unauthorized", events := [], fetchNeeded := false }
  else
    let roomId := sanitizeText payload.roomId ""
    if roomId = "" then
      { state := st, ack := .fail "Missing roomId", events := [], fetchNeeded := false }
    else
      let userId := joinUserId auth payload socketId
      let displayName := joinDisplayName auth payload userId
      let role := sanitizeRole payload.role
      let rs := getRoomState st roomId
      let room := rs.1
      let participant : Participant :=
        { userId := userId, socketId := socketId, displayName := displayName,
          role := role, raisedHand := false, joinedAt := now, producerIds := [] }
      let room' := { room with participants := setAL room.participants socketId participant }
      let roster :=
        (room'.participants.map (·.2)).filter (fun peer => peer.socketId ≠ socketId)
      { state := { rooms := setAL rs.2.rooms roomId room' },
        ack := .ok,
        events :=
          [ .peerJoined roomId participant,
            .roster socketId roster room.messages room.rtpCapabilities
              (room.producers.map (·.2)) ],
        fetchNeeded := room.rtpCapabilities.isNone }

/-- The shared body of `room:leave` and the `disconnecting` loop: delete
the participant record, drop its producer ids from the producer index
(emitting producer-removed for each), then emit peer-left. -/
def removeFromRoom (room : SigRoom) (socketId : String) (roomId : String) :
    SigRoom × List SigEvent :=
  let participantOpt := lookupAL room.participants socketId
  let room1 := { room with participants := eraseAL room.participants socketId }
  match participantOpt with
  | none => (room1, [])
  | some p =>
    ({ room1 with
        producers := p.producerIds.foldl (fun m pid => eraseAL m pid) room1.producers },
     p.producerIds.map (fun pid => SigEvent.producerRemoved roomId pid)
       ++ [SigEvent.peerLeft roomId p.userId])

/-- Handler of `room:leave`. -/
def roomLeave (st : SigState) (socketId : String) (payloadRoomId : JValue) :
    SigState × List SigEvent :=
  let roomId := sanitizeText payloadRoomId ""
  if roomId = "" then (st, [])
  else
    match lookupAL st.rooms roomId with
    | none => (st, [])
    | some room =>
      let re := removeFromRoom room socketId roomId
      ({ rooms := setAL st.rooms roomId re.1 }, re.2)

/-- One room of the `disconnecting` loop body. -/
def disconnectRoom (st : SigState) (socketId : String) (roomId : String) :
    SigState × List SigEvent :=
  match lookupAL st.rooms roomId with
  | none => (st, [])
  | some room =>
    let re := removeFromRoom room socketId roomId
    ({ rooms := setAL st.rooms roomId re.1 }, re.2)

/-- Handler of `disconnecting`: iterate over the socket.io rooms of the
socket, skipping the socket's own private room. -/
def disconnecting (st : SigState) (socketId : String) (socketRooms : List String) :
    SigState × List SigEvent :=
  socketRooms.foldl
    (fun acc roomId =>
      if roomId = socketId then acc
      else
        let r := disconnectRoom acc.1 socketId roomId
        (r.1, acc.2 ++ r.2))
    (st, [])

/-- The history append of `room:message`:
`room.messages = [...room.messages.slice(-49), message]`. -/
def appendMessage (msgs : List SigMessage) (m : SigMessage) : List SigMessage :=
  msgs.rtake 49 ++ [m]

/-- Result of the `room:message` handler. -/
structure MsgOutcome where
  state : SigState
  ack : Ack
  events : List SigEvent
deriving Repr, DecidableEq

/-- Handler of `room:message`: validates fields, looks the room up through
the lazily-creating `getRoomState`, requires the sender to be a current
participant, appends to the bounded history and broadcasts. -/
def roomMessage (st : SigState) (socketId : String)
    (payloadRoomId payloadMessage : JValue) (msgId : String) (now : Nat) : MsgOutcome :=
  let roomId := sanitizeText payloadRoomId ""
  let messageText := sanitizeText payloadMessage ""
  if roomId = "" ∨ messageText = "" then
    { state := st, ack := .fail "Missing data", events := [] }
  else
    let rs := getRoomState st roomId
    let room := rs.1
    match lookupAL room.participants socketId with
    | none => { state := rs.2, ack := .fail "Not in room", events := [] }
    | some sender =>
      let message : SigMessage :=
        { id := msgId, roomId := roomId, userId := sender.userId,
          displayName := sender.displayName, message := messageText, createdAt := now }
      let room' := { room with messages := appendMessage room.messages message }
      { state := { rooms := setAL rs.2.rooms roomId room' },
        ack := .ok,
        events := [SigEvent.chat roomId message] }

/-! ## Capability-fetch interleaving model for `room:join`

The `room:join` handler suspends at `await fetchRtpCapabilities(roomId)`
and only writes the cache after the fetch resolves.  The model below
keeps exactly the state that segment touches: the socket.io membership
of the room, the cached capabilities, the set of outstanding fetches,
how many fetches were ever issued, and the broadcasts of arriving
results (each recorded with the membership at broadcast time). -/

structure FetchState where
  members : List String
  cached : Option Nat
  pendingFetches : List String
  fetchesIssued : Nat
  broadcasts : List (List String × Nat)
deriving Repr, DecidableEq

def fetchInit : FetchState :=
  { members := [], cached := none, pendingFetches := [], fetchesIssued := 0,
    broadcasts := [] }

/-- Atomic segments of the handler: `joinStart` is everything before the
`await` (join the room, check the cache, issue the fetch when the cache
is empty); `fetchReturn` is the continuation after the `await` (on a
non-null result, write the cache and broadcast to the current members). -/
inductive FetchStep where
  | joinStart (socketId : String)
  | fetchReturn (socketId : String) (result : Option Nat)
deriving Repr, DecidableEq

def applyFetchStep (st : FetchState) (step : FetchStep) : FetchState :=
  match step with
  | .joinStart s =>
    let st1 := { st with members := st.members ++ [s] }
    if st1.cached.isNone then
      { st1 with pendingFetches := st1.pendingFetches ++ [s],
                 fetchesIssued := st1.fetchesIssued + 1 }
    else st1
  | .fetchReturn s result =>
    if s ∈ st.pendingFetches then
      let st1 := { st with pendingFetches := st.pendingFetches.erase s }
      match result with
      | some caps =>
        { st1 with cached := some caps, broadcasts := st1.broadcasts ++ [(st1.members, caps)] }
      | none => st1
    else st

def runFetchTrace (steps : List FetchStep) : FetchState :=
  steps.foldl applyFetchStep fetchInit

/-! ## Theorems -/

theorem getOrCreateRoom_of_lookup (st : MWState) (roomId : String) (r : MWRoom) (t : Nat)
    (h : lookupAL st.rooms roomId = some r) : getOrCreateRoom st roomId t = (r, st) := by
  simp [getOrCreateRoom, h]

theorem getOrCreateRoom_mem (st : MWState) (roomId : String) (t : Nat) :
    lookupAL (getOrCreateRoom st roomId t).2.rooms roomId
      = some (getOrCreateRoom st roomId t).1 := by
  unfold getOrCreateRoom
  cases h : lookupAL st.rooms roomId with
  | some r => simp [h]
  | none => simp [h, getNextWorker, lookupAL_setAL_self]

/-- C1: repeated room creation with the same id (both through
`getOrCreateRoom` and through the `POST /rooms` handler) returns the
room of the first call unchanged — same capabilities and `createdAt` in
the response — and leaves the whole state untouched, so no second
router is created and the round-robin worker counter does not move on
any call after the first. -/
theorem c1_room_creation_idempotent (st : MWState) (roomId f1 f2 : String) (t1 t2 : Nat)
    (_hN : 0 < st.numWorkers) :
    (getOrCreateRoom (getOrCreateRoom st roomId t1).2 roomId t2).1
        = (getOrCreateRoom st roomId t1).1 ∧
    (getOrCreateRoom (getOrCreateRoom st roomId t1).2 roomId t2).2
        = (getOrCreateRoom st roomId t1).2 ∧
    (getOrCreateRoom (getOrCreateRoom st roomId t1).2 roomId t2).2.routersCreated
        = (getOrCreateRoom st roomId t1).2.routersCreated ∧
    (getOrCreateRoom (getOrCreateRoom st roomId t1).2 roomId t2).2.nextWorkerIndex
        = (getOrCreateRoom st roomId t1).2.nextWorkerIndex ∧
    (handlePostRooms (handlePostRooms st (some roomId) f1 t1).2 (some roomId) f2 t2).1
        = (handlePostRooms st (some roomId) f1 t1).1 ∧
    (handlePostRooms (handlePostRooms st (some roomId) f1 t1).2 (some roomId) f2 t2).2
        = (handlePostRooms st (some roomId) f1 t1).2 := by
  have h2 := getOrCreateRoom_of_lookup (getOrCreateRoom st roomId t1).2 roomId
    (getOrCreateRoom st roomId t1).1 t2 (getOrCreateRoom_mem st roomId t1)
  refine ⟨by rw [h2], by rw [h2], by rw [h2], by rw [h2], ?_, ?_⟩ <;>
    simp [handlePostRooms, h2]

theorem c1_room_creation_idempotent_witness :
    0 < (mwInit 2).numWorkers ∧
    ((getOrCreateRoom (getOrCreateRoom (mwInit 2) "r1" 5).2 "r1" 9).1
        = (getOrCreateRoom (mwInit 2) "r1" 5).1 ∧
     (getOrCreateRoom (getOrCreateRoom (mwInit 2) "r1" 5).2 "r1" 9).2
        = (getOrCreateRoom (mwInit 2) "r1" 5).2 ∧
     (getOrCreateRoom (getOrCreateRoom (mwInit 2) "r1" 5).2 "r1" 9).2.routersCreated
        = (getOrCreateRoom (mwInit 2) "r1" 5).2.routersCreated ∧
     (getOrCreateRoom (getOrCreateRoom (mwInit 2) "r1" 5).2 "r1" 9).2.nextWorkerIndex
        = (getOrCreateRoom (mwInit 2) "r1" 5).2.nextWorkerIndex ∧
     (handlePostRooms (handlePostRooms (mwInit 2) (some "r1") "u1" 5).2 (some "r1") "u2" 9).1
        = (handlePostRooms (mwInit 2) (some "r1") "u1" 5).1 ∧
     (handlePostRooms (handlePostRooms (mwInit 2) (some "r1") "u1" 5).2 (some "r1") "u2" 9).2
        = (handlePostRooms (mwInit 2) (some "r1") "u1" 5).2) :=
  ⟨by decide, c1_room_creation_idempotent (mwInit 2) "r1" "u1" "u2" 5 9 (by decide)⟩

theorem createRoomsSeq_workerIndex (ids : List String) (st : MWState) (now k : Nat)
    (hnd : ids.Nodup) (hfresh : ∀ id ∈ ids, lookupAL st.rooms id = none)
    (hk : k < ids.length) :
    Option.map MWRoom.workerIndex ((createRoomsSeq st ids now).1[k]?)
      = some ((st.nextWorkerIndex + k) % st.numWorkers) := by
  induction ids generalizing st k with
  | nil => simp at hk
  | cons id rest ih =>
    have hid : lookupAL st.rooms id = none := hfresh id (List.mem_cons_self id rest)
    have hcreate : getOrCreateRoom st id now =
        ({ id := id, workerIndex := st.nextWorkerIndex % st.numWorkers,
           routerId := st.routersCreated, createdAt := now,
           transports := [], producers := [] },
         { st with nextWorkerIndex := st.nextWorkerIndex + 1,
                   routersCreated := st.routersCreated + 1,
                   rooms := setAL st.rooms id
                     { id := id, workerIndex := st.nextWorkerIndex % st.numWorkers,
                       routerId := st.routersCreated, createdAt := now,
                       transports := [], producers := [] } }) := by
      simp [getOrCreateRoom, hid, getNextWorker]
    match k with
    | 0 =>
      simp [createRoomsSeq, hcreate]
    | Nat.succ k' =>
      have hnd' : rest.Nodup := (List.nodup_cons.mp hnd).2
      have hninr : id ∉ rest := (List.nodup_cons.mp hnd).1
      have hfresh' : ∀ id' ∈ rest,
          lookupAL (getOrCreateRoom st id now).2.rooms id' = none := by
        intro id' hmem
        have hne : id' ≠ id := fun hh => hninr (hh ▸ hmem)
        rw [hcreate]
        simpa [lookupAL_setAL_ne _ _ _ _ hne] using hfresh id' (List.mem_cons_of_mem id hmem)
      have hk' : k' < rest.length := by
        simpa [Nat.succ_lt_succ_iff] using hk
      have hstep := ih (getOrCreateRoom st id now).2 k' hnd' hfresh' hk'
      have hnw : (getOrCreateRoom st id now).2.numWorkers = st.numWorkers := by
        rw [hcreate]
      have hni : (getOrCreateRoom st id now).2.nextWorkerIndex = st.nextWorkerIndex + 1 := by
        rw [hcreate]
      rw [hnw, hni] at hstep
      simp only [createRoomsSeq, List.getElem?_cons_succ]
      rw [hstep]
      have harith : st.nextWorkerIndex + 1 + k' = st.nextWorkerIndex + (k' + 1) := by omega
      rw [harith]

/-- C2: from a fresh pool of `N` workers, creating any duplicate-free
sequence of new rooms assigns the `k`-th room (1-based) the worker
`(k-1) % N`; in particular the `(N+1)`-th room wraps around to the
first worker.  Moreover a creation call for an id that already exists
returns the existing room and leaves the state — including the
round-robin counter — unchanged, so repeated creations do not disturb
the assignment of later distinct rooms. -/
theorem c2_round_robin_assignment (ids : List String) (n now k : Nat)
    (st2 : MWState) (id2 : String) (r2 : MWRoom) (t2 : Nat)
    (hnd : ids.Nodup) (hk1 : 1 ≤ k) (hk2 : k ≤ ids.length)
    (hmem : lookupAL st2.rooms id2 = some r2) :
    Option.map MWRoom.workerIndex ((createRoomsSeq (mwInit n) ids now).1[k - 1]?)
      = some ((k - 1) % n) ∧
    getOrCreateRoom st2 id2 t2 = (r2, st2) := by
  constructor
  · have hfresh : ∀ id ∈ ids, lookupAL (mwInit n).rooms id = none := by
      intro id _
      simp [mwInit, lookupAL]
    have hk : k - 1 < ids.length := by omega
    simpa [mwInit] using createRoomsSeq_workerIndex ids (mwInit n) now (k - 1) hnd hfresh hk
  · exact getOrCreateRoom_of_lookup st2 id2 r2 t2 hmem

theorem c2_round_robin_assignment_witness :
    (["a", "b", "c"] : List String).Nodup ∧ 1 ≤ 3 ∧ 3 ≤ (["a", "b", "c"] : List String).length ∧
    lookupAL (getOrCreateRoom (mwInit 2) "a" 0).2.rooms "a"
      = some (getOrCreateRoom (mwInit 2) "a" 0).1 ∧
    (Option.map MWRoom.workerIndex ((createRoomsSeq (mwInit 2) ["a", "b", "c"] 0).1[3 - 1]?)
        = some ((3 - 1) % 2) ∧
     getOrCreateRoom (getOrCreateRoom (mwInit 2) "a" 0).2 "a" 7
        = ((getOrCreateRoom (mwInit 2) "a" 0).1, (getOrCreateRoom (mwInit 2) "a" 0).2)) :=
  ⟨by decide, by decide, by decide, by decide,
   c2_round_robin_assignment ["a", "b", "c"] 2 0 3
     (getOrCreateRoom (mwInit 2) "a" 0).2 "a" (getOrCreateRoom (mwInit 2) "a" 0).1 7
     (by decide) (by decide) (by decide) (by decide)⟩

theorem disconnectRoom_no_participant (st : SigState) (socketId roomId : String)
    (hnp : ∀ r rm, lookupAL st.rooms r = some rm →
      lookupAL rm.participants socketId = none) :
    (disconnectRoom st socketId roomId).2 = [] ∧
    (∀ r rm, lookupAL (disconnectRoom st socketId roomId).1.rooms r = some rm →
      lookupAL rm.participants socketId = none) := by
  cases h : lookupAL st.rooms roomId with
  | none =>
    refine ⟨by simp [disconnectRoom, h], ?_⟩
    simp only [disconnectRoom, h]
    exact hnp
  | some room =>
    have hpart : lookupAL room.participants socketId = none := hnp roomId room h
    have hrem : removeFromRoom room socketId roomId =
        ({ room with participants := eraseAL room.participants socketId }, []) := by
      simp [removeFromRoom, hpart]
    refine ⟨by simp [disconnectRoom, h, hrem], ?_⟩
    intro r rm hlook
    simp only [disconnectRoom, h, hrem] at hlook
    by_cases hr : r = roomId
    · rw [hr, lookupAL_setAL_self] at hlook
      cases hlook
      simp [lookupAL_eraseAL]
    · rw [lookupAL_setAL_ne _ _ _ _ hr] at hlook
      exact hnp r rm hlook

theorem disconnecting_fold (socketId : String) (socketRooms : List String) :
    ∀ (st : SigState) (acc : List SigEvent),
    (∀ r rm, lookupAL st.rooms r = some rm →
      lookupAL rm.participants socketId = none) →
    (socketRooms.foldl
      (fun acc roomId =>
        if roomId = socketId then acc
        else
          let r := disconnectRoom acc.1 socketId roomId
          (r.1, acc.2 ++ r.2))
      (st, acc)).2 = acc := by
  induction socketRooms with
  | nil =>
    intro st acc _
    rfl
  | cons hd tl ih =>
    intro st acc hnp
    simp only [List.foldl_cons]
    by_cases h : hd = socketId
    · rw [if_pos h]
      exact ih st acc hnp
    · rw [if_neg h]
      obtain ⟨hev, hinv⟩ := disconnectRoom_no_participant st socketId hd hnp
      simp only [hev, List.append_nil]
      exact ih _ acc hinv

/-- C3: when a participant leaves a room (`room:leave`), its record is
removed, exactly the producer ids its record owned disappear from the
room's producer index and no others, and the emitted events are one
producer-removed per owned producer id followed by a single peer-left,
all addressed to the remaining members; and a connection that is not a
participant of any room emits no events on disconnect. -/
theorem c3_leave_cleanup (st : SigState) (socketId : String) (ridJ : JValue)
    (rid : String) (room : SigRoom) (p : Participant) (pid : String)
    (st3 : SigState) (socketId3 : String) (rooms3 : List String)
    (hrid : sanitizeText ridJ "" = rid) (hne : rid ≠ "")
    (hroom : lookupAL st.rooms rid = some room)
    (hp : lookupAL room.participants socketId = some p)
    (hnp3 : ∀ r rm, lookupAL st3.rooms r = some rm →
      lookupAL rm.participants socketId3 = none) :
    lookupAL ((lookupAL (roomLeave st socketId ridJ).1.rooms rid).getD
        emptySigRoom).participants socketId = none ∧
    lookupAL ((lookupAL (roomLeave st socketId ridJ).1.rooms rid).getD
        emptySigRoom).producers pid
      = (if pid ∈ p.producerIds then none else lookupAL room.producers pid) ∧
    (roomLeave st socketId ridJ).2
      = p.producerIds.map (fun q => SigEvent.producerRemoved rid q)
        ++ [SigEvent.peerLeft rid p.userId] ∧
    (disconnecting st3 socketId3 rooms3).2 = [] := by
  have hrem : removeFromRoom room socketId rid =
      ({ room with participants := eraseAL room.participants socketId,
                   producers := p.producerIds.foldl (fun m q => eraseAL m q)
                     room.producers },
       p.producerIds.map (fun q => SigEvent.producerRemoved rid q)
         ++ [SigEvent.peerLeft rid p.userId]) := by
    simp [removeFromRoom, hp]
  have hout : roomLeave st socketId ridJ =
      ({ rooms := setAL st.rooms rid (removeFromRoom room socketId rid).1 },
       (removeFromRoom room socketId rid).2) := by
    simp [roomLeave, hrid, hne, hroom]
  refine ⟨?_, ?_, ?_, ?_⟩
  · rw [hout]
    simp only [lookupAL_setAL_self, Option.getD_some, hrem]
    simp [lookupAL_eraseAL]
  · rw [hout]
    simp only [lookupAL_setAL_self, Option.getD_some, hrem]
    simpa using lookupAL_eraseKeys p.producerIds room.producers pid
  · rw [hout, hrem]
  · have := disconnecting_fold socketId3 rooms3 st3 [] hnp3
    simpa [disconnecting] using this

def demoParticipant : Participant :=
  { userId := "u1", socketId := "s1", displayName := "Ada", role := .host,
    raisedHand := false, joinedAt := 0, producerIds := ["p1", "p2"] }

def demoPeer : Participant :=
  { userId := "u2", socketId := "s2", displayName := "Eve", role := .viewer,
    raisedHand := false, joinedAt := 1, producerIds := [] }

def demoSigRoom : SigRoom :=
  { participants := [("s1", demoParticipant), ("s2", demoPeer)],
    messages := [],
    rtpCapabilities := some 7,
    producers :=
      [("p1", { id := "p1", userId := "u1", kind := "audio" }),
       ("p2", { id := "p2", userId := "u1", kind := "video" }),
       ("p3", { id := "p3", userId := "u2", kind := "audio" })] }

def demoSigState : SigState := { rooms := [("r1", demoSigRoom)] }

theorem c3_leave_cleanup_witness :
    (sanitizeText (.str "r1") "" = "r1" ∧ "r1" ≠ "" ∧
     lookupAL demoSigState.rooms "r1" = some demoSigRoom ∧
     lookupAL demoSigRoom.participants "s1" = some demoParticipant ∧
     (∀ r rm, lookupAL sigEmpty.rooms r = some rm →
       lookupAL rm.participants "s9" = none)) ∧
    (lookupAL ((lookupAL (roomLeave demoSigState "s1" (.str "r1")).1.rooms "r1").getD
        emptySigRoom).participants "s1" = none ∧
     lookupAL ((lookupAL (roomLeave demoSigState "s1" (.str "r1")).1.rooms "r1").getD
        emptySigRoom).producers "p3"
       = (if "p3" ∈ demoParticipant.producerIds then none
          else lookupAL demoSigRoom.producers "p3") ∧
     (roomLeave demoSigState "s1" (.str "r1")).2
       = demoParticipant.producerIds.map (fun q => SigEvent.producerRemoved "r1" q)
         ++ [SigEvent.peerLeft "r1" demoParticipant.userId] ∧
     (disconnecting sigEmpty "s9" ["r1", "s9"]).2 = []) :=
  ⟨⟨by decide, by decide, by decide, by decide, by intro r rm h; simp [sigEmpty, lookupAL] at h⟩,
   c3_leave_cleanup demoSigState "s1" (.str "r1") "r1" demoSigRoom demoParticipant "p3"
     sigEmpty "s9" ["r1", "s9"] (by decide) (by decide) (by decide) (by decide)
     (by intro r rm h; simp [sigEmpty, lookupAL] at h)⟩

theorem rtake_rtake_chat (l : List SigMessage) : (l.rtake 50).rtake 49 = l.rtake 49 := by
  simp [List.rtake_eq_reverse_take_reverse, List.take_take]

theorem foldl_appendMessage_eq_rtake (ms : List SigMessage) :
    List.foldl appendMessage [] ms = ms.rtake 50 := by
  induction ms using List.reverseRecOn with
  | nil => simp [List.rtake]
  | append_singleton ms m ih =>
    rw [List.foldl_append]
    simp only [List.foldl_cons, List.foldl_nil]
    rw [ih, appendMessage, rtake_rtake_chat,
      show (50 : Nat) = 49 + 1 from rfl, List.rtake_concat_succ]

/-- C5: folding any sequence of accepted chat messages through the
history append of `room:message` retains at most 50 messages, and the
retained list is exactly the most recent 50 in arrival order. -/
theorem c5_chat_history_bounded (ms : List SigMessage) :
    (List.foldl appendMessage [] ms).length ≤ 50 ∧
    List.foldl appendMessage [] ms = ms.rtake 50 := by
  refine ⟨?_, foldl_appendMessage_eq_rtake ms⟩
  rw [foldl_appendMessage_eq_rtake ms]
  simp only [List.rtake, List.length_drop]
  omega

/-- C4: on an existing room and a known transport, with `producerId` and
`rtpCapabilities` present, the `router.canConsume` compatibility check
decides the outcome before any consumer exists: when it refuses, the
handler answers 400 "Cannot consume" and the state — in particular the
count of consumers ever created — is untouched; when it accepts, the
handler answers 201 with the consumer id, kind and RTP parameters and
exactly one consumer is created. -/
theorem c4_consumer_capability_gate
    (exta : ExtMedia) (sta : MWState) (roomIda : String) (rooma : MWRoom)
    (tida pida : String) (capsa : Nat)
    (extb : ExtMedia) (stb : MWState) (roomIdb : String) (roomb : MWRoom)
    (tidb pidb : String) (capsb : Nat)
    (hrooma : lookupAL sta.rooms roomIda = some rooma)
    (htida : tida ∈ rooma.transports) (hpida : pida ≠ "")
    (hcana : exta.canConsume pida capsa = false)
    (hroomb : lookupAL stb.rooms roomIdb = some roomb)
    (htidb : tidb ∈ roomb.transports) (hpidb : pidb ≠ "")
    (hcanb : extb.canConsume pidb capsb = true) :
    handlePostConsumers exta sta roomIda
        (some { transportId := some tida, producerId := some pida,
                rtpCapabilities := some capsa })
      = ({ status := 400, payload := .err "Cannot consume" }, sta) ∧
    handlePostConsumers extb stb roomIdb
        (some { transportId := some tidb, producerId := some pidb,
                rtpCapabilities := some capsb })
      = ({ status := 201,
           payload := .consumerCreated stb.consumersCreated pidb
             (extb.consumerKind pidb) (extb.consumerRtp pidb capsb) },
         { stb with consumersCreated := stb.consumersCreated + 1 }) := by
  constructor
  · simp [handlePostConsumers, hrooma, htida, hpida, hcana]
  · simp [handlePostConsumers, hroomb, htidb, hpidb, hcanb]

def extDeny : ExtMedia :=
  { canConsume := fun _ _ => false, consumerKind := fun _ => "audio",
    consumerRtp := fun _ caps => caps }

def extAllow : ExtMedia :=
  { canConsume := fun _ _ => true, consumerKind := fun _ => "audio",
    consumerRtp := fun _ caps => caps }

def demoMWRoom : MWRoom :=
  { id := "r1", workerIndex := 0, routerId := 0, createdAt := 0,
    transports := ["t1"], producers := [("p1", "audio")] }

def demoMWState : MWState :=
  { numWorkers := 1, nextWorkerIndex := 1, routersCreated := 1,
    consumersCreated := 0, rooms := [("r1", demoMWRoom)] }

theorem c4_consumer_capability_gate_witness :
    (lookupAL demoMWState.rooms "r1" = some demoMWRoom ∧
     "t1" ∈ demoMWRoom.transports ∧ "p1" ≠ "" ∧
     extDeny.canConsume "p1" 3 = false ∧ extAllow.canConsume "p1" 3 = true) ∧
    (handlePostConsumers extDeny demoMWState "r1"
        (some { transportId := some "t1", producerId := some "p1",
                rtpCapabilities := some 3 })
      = ({ status := 400, payload := .err "Cannot consume" }, demoMWState) ∧
     handlePostConsumers extAllow demoMWState "r1"
        (some { transportId := some "t1", producerId := some "p1",
                rtpCapabilities := some 3 })
      = ({ status := 201,
           payload := .consumerCreated demoMWState.consumersCreated "p1"
             (extAllow.consumerKind "p1") (extAllow.consumerRtp "p1" 3) },
         { demoMWState with consumersCreated := demoMWState.consumersCreated + 1 })) :=
  ⟨⟨by decide, by decide, by decide, by decide, by decide⟩,
   c4_consumer_capability_gate extDeny demoMWState "r1" demoMWRoom "t1" "p1" 3
     extAllow demoMWState "r1" demoMWRoom "t1" "p1" 3
     (by decide) (by decide) (by decide) (by decide)
     (by decide) (by decide) (by decide) (by decide)⟩

def demoTransport : TransportInfo :=
  { id := "t9", iceParameters := 11, iceCandidates := 12, dtlsParameters := 13 }

/-- C6 counterexample: `POST /rooms/{roomId}/transports` on a state with
no room of that id does not answer 404 — it answers 201, because the
handler fetches the room through the lazily creating `getOrCreateRoom`. -/
theorem c6_counterexample :
    lookupAL (mwInit 1).rooms "missing" = none ∧
    (handlePostTransports (mwInit 1) "missing" demoTransport 0).1.status = 201 ∧
    ¬ (handlePostTransports (mwInit 1) "missing" demoTransport 0).1.status = 404 := by
  decide

/-- C6 amended: `POST /rooms/{roomId}/transports` never fails with 404
for a missing room; it lazily creates the room when absent via
`getOrCreateRoom`, always answers 201 carrying the transport id, ICE
parameters, ICE candidates and DTLS parameters, and afterwards the room
exists and holds the new transport. -/
theorem c6_transport_creation_lazy (st : MWState) (roomId : String)
    (newT : TransportInfo) (now : Nat) (_hN : 0 < st.numWorkers) :
    (handlePostTransports st roomId newT now).1
      = { status := 201,
          payload := .transportCreated newT.id newT.iceParameters newT.iceCandidates
            newT.dtlsParameters } ∧
    lookupAL (handlePostTransports st roomId newT now).2.rooms roomId
      = some { (getOrCreateRoom st roomId now).1 with
               transports := newT.id :: (getOrCreateRoom st roomId now).1.transports } := by
  constructor
  · rfl
  · simp [handlePostTransports, lookupAL_setAL_self]

theorem c6_transport_creation_lazy_witness :
    0 < (mwInit 1).numWorkers ∧
    ((handlePostTransports (mwInit 1) "missing" demoTransport 0).1
      = { status := 201,
          payload := .transportCreated demoTransport.id demoTransport.iceParameters
            demoTransport.iceCandidates demoTransport.dtlsParameters } ∧
     lookupAL (handlePostTransports (mwInit 1) "missing" demoTransport 0).2.rooms "missing"
      = some { (getOrCreateRoom (mwInit 1) "missing" 0).1 with
               transports := demoTransport.id
                 :: (getOrCreateRoom (mwInit 1) "missing" 0).1.transports }) :=
  ⟨by decide, c6_transport_creation_lazy (mwInit 1) "missing" demoTransport 0 (by decide)⟩

/-- C7 counterexample: two joiners whose synchronous segments both run
before either capability fetch resolves each issue a fetch, so two
fetches are issued for the room and two are outstanding at once — the
claimed "exactly one fetch per room, at most one ever outstanding" is
false of the handler, whose cache is only written after the await. -/
theorem c7_counterexample :
    (runFetchTrace [FetchStep.joinStart "a", FetchStep.joinStart "b"]).fetchesIssued = 2 ∧
    (runFetchTrace [FetchStep.joinStart "a", FetchStep.joinStart "b"]).pendingFetches
      = ["a", "b"] ∧
    (runFetchTrace [FetchStep.joinStart "a", FetchStep.joinStart "b",
        FetchStep.fetchReturn "a" (some 5),
        FetchStep.fetchReturn "b" (some 5)]).fetchesIssued = 2 := by
  decide

/-- C7 amended: the cache check before the fetch guarantees that a join
that starts after the cache is populated issues no fetch; but a join
that starts while the cache is still empty — in particular while an
earlier fetch is still outstanding, or after a failed fetch — issues
its own fetch, so several fetches may be outstanding for one room.  A
successful fetch result is cached and broadcast to all current room
members, not only the requester. -/
theorem c7_fetch_cache_guard
    (st1 : FetchState) (s1 : String) (st2 : FetchState) (s2 : String)
    (st3 : FetchState) (s3 : String) (r3 : Nat)
    (h1 : st1.cached.isSome = true)
    (h2 : st2.cached = none)
    (h3 : s3 ∈ st3.pendingFetches) :
    (applyFetchStep st1 (.joinStart s1)).fetchesIssued = st1.fetchesIssued ∧
    (applyFetchStep st1 (.joinStart s1)).pendingFetches = st1.pendingFetches ∧
    (applyFetchStep st2 (.joinStart s2)).fetchesIssued = st2.fetchesIssued + 1 ∧
    (applyFetchStep st3 (.fetchReturn s3 (some r3))).cached = some r3 ∧
    (applyFetchStep st3 (.fetchReturn s3 (some r3))).broadcasts
      = st3.broadcasts ++ [(st3.members, r3)] := by
  obtain ⟨c, hc⟩ := Option.isSome_iff_exists.mp h1
  refine ⟨?_, ?_, ?_, ?_, ?_⟩ <;> simp [applyFetchStep, hc, h2, h3]

def demoFetchCached : FetchState :=
  { members := ["a"], cached := some 7, pendingFetches := [], fetchesIssued := 1,
    broadcasts := [(["a"], 7)] }

def demoFetchPending : FetchState :=
  { members := ["a", "b"], cached := none, pendingFetches := ["a"], fetchesIssued := 1,
    broadcasts := [] }

theorem c7_fetch_cache_guard_witness :
    (demoFetchCached.cached.isSome = true ∧ fetchInit.cached = none ∧
     "a" ∈ demoFetchPending.pendingFetches) ∧
    ((applyFetchStep demoFetchCached (.joinStart "b")).fetchesIssued
        = demoFetchCached.fetchesIssued ∧
     (applyFetchStep demoFetchCached (.joinStart "b")).pendingFetches
        = demoFetchCached.pendingFetches ∧
     (applyFetchStep fetchInit (.joinStart "b")).fetchesIssued
        = fetchInit.fetchesIssued + 1 ∧
     (applyFetchStep demoFetchPending (.fetchReturn "a" (some 9))).cached = some 9 ∧
     (applyFetchStep demoFetchPending (.fetchReturn "a" (some 9))).broadcasts
        = demoFetchPending.broadcasts ++ [(demoFetchPending.members, 9)]) :=
  ⟨⟨by decide, by decide, by decide⟩,
   c7_fetch_cache_guard demoFetchCached "b" fetchInit "b" demoFetchPending "a" 9
     (by decide) (by decide) (by decide)⟩

/-- C8 counterexample: a chat message from a socket that is in no room,
naming a room that does not exist, fails with "Not in room" as claimed
— but the handler reaches the room through the lazily creating
`getRoomState`, so an (empty) room record is created: state is mutated
on a room-lookup miss outside the join and producer/consumer paths. -/
theorem c8_counterexample :
    (roomMessage sigEmpty "s1" (.str "r1") (.str "hello") "m1" 0).ack
      = Ack.fail "Not in room" ∧
    lookupAL sigEmpty.rooms "r1" = none ∧
    lookupAL (roomMessage sigEmpty "s1" (.str "r1") (.str "hello") "m1" 0).state.rooms "r1"
      = some emptySigRoom := by
  decide

/-- C8 amended: a chat message from a sender that is not a current
participant fails with the client-visible error "Not in room", emits
nothing, and mutates no participant, message or producer state — but
the room lookup goes through the lazily creating `getRoomState`, so
when the room record is absent an empty one is registered as a side
effect (the resulting state is exactly the `getRoomState` state). -/
theorem c8_nonparticipant_message (st : SigState) (socketId : String)
    (ridJ msgJ : JValue) (msgId : String) (now : Nat)
    (hrid : ¬ sanitizeText ridJ "" = "")
    (hmsg : ¬ sanitizeText msgJ "" = "")
    (hnp : lookupAL (getRoomState st (sanitizeText ridJ "")).1.participants socketId
      = none) :
    (roomMessage st socketId ridJ msgJ msgId now).ack = .fail "Not in room" ∧
    (roomMessage st socketId ridJ msgJ msgId now).events = [] ∧
    (roomMessage st socketId ridJ msgJ msgId now).state
      = (getRoomState st (sanitizeText ridJ "")).2 := by
  refine ⟨?_, ?_, ?_⟩ <;> simp [roomMessage, hrid, hmsg, hnp]

theorem c8_nonparticipant_message_witness :
    (¬ sanitizeText (.str "r1") "" = "" ∧ ¬ sanitizeText (.str "hello") "" = "" ∧
     lookupAL (getRoomState sigEmpty (sanitizeText (.str "r1") "")).1.participants "s1"
       = none) ∧
    ((roomMessage sigEmpty "s1" (.str "r1") (.str "hello") "m1" 0).ack
       = .fail "Not in room" ∧
     (roomMessage sigEmpty "s1" (.str "r1") (.str "hello") "m1" 0).events = [] ∧
     (roomMessage sigEmpty "s1" (.str "r1") (.str "hello") "m1" 0).state
       = (getRoomState sigEmpty (sanitizeText (.str "r1") "")).2) :=
  ⟨⟨by decide, by decide, by decide⟩,
   c8_nonparticipant_message sigEmpty "s1" (.str "r1") (.str "hello") "m1" 0
     (by decide) (by decide) (by decide)⟩

/-- C9: `sanitizeRole` coerces every value other than exactly the
strings "host", "cohost" and "speaker" — including missing, null,
non-string and unknown-string values — to the viewer role, and the
acknowledgment of a `room:join` request does not depend on the role
field: a join is never rejected because of its role. -/
theorem c9_role_sanitized (v v' : JValue) (st : SigState) (socketId : String)
    (authRequired : Bool) (auth : Option SocketAuth) (payload : JoinPayload) (now : Nat)
    (h1 : v ≠ .str "host") (h2 : v ≠ .str "cohost") (h3 : v ≠ .str "speaker") :
    sanitizeRole v = .viewer ∧
    (roomJoin st socketId authRequired auth payload now).ack
      = (roomJoin st socketId authRequired auth { payload with role := v' } now).ack := by
  constructor
  · cases v with
    | str s =>
      have hs1 : ¬ s = "host" := fun hh => h1 (congrArg JValue.str hh)
      have hs2 : ¬ s = "cohost" := fun hh => h2 (congrArg JValue.str hh)
      have hs3 : ¬ s = "speaker" := fun hh => h3 (congrArg JValue.str hh)
      simp [sanitizeRole, hs1, hs2, hs3]
    | num n => rfl
    | boolean b => rfl
    | null => rfl
    | absent => rfl
  · by_cases hA : authRequired ∧ auth = none
    · simp [roomJoin, hA]
    · by_cases hR : sanitizeText payload.roomId "" = ""
      · simp [roomJoin, hA, hR]
      · simp [roomJoin, hA, hR]

def demoJoinPayload : JoinPayload :=
  { roomId := .str "r1", userId := .str "u1", displayName := .str "Ada",
    role := .num 3 }

theorem c9_role_sanitized_witness :
    (JValue.num 3 ≠ .str "host" ∧ JValue.num 3 ≠ .str "cohost" ∧
     JValue.num 3 ≠ .str "speaker") ∧
    (sanitizeRole (.num 3) = .viewer ∧
     (roomJoin sigEmpty "s1" false none demoJoinPayload 0).ack
       = (roomJoin sigEmpty "s1" false none
           { demoJoinPayload with role := .str "admin" } 0).ack) :=
  ⟨⟨by decide, by decide, by decide⟩,
   c9_role_sanitized (.num 3) (.str "admin") sigEmpty "s1" false none demoJoinPayload 0
     (by decide) (by decide) (by decide)⟩

/-- C10: a second `room:join` from a connection that is already a
participant of the room replaces its participant record wholesale with
a freshly built one: `raisedHand` is false, `producerIds` is the empty
list and `joinedAt` is the new timestamp, whatever the old record held,
so producer ids tracked before the re-join are no longer associated
with the participant. -/
theorem c10_rejoin_resets (st : SigState) (socketId : String) (authRequired : Bool)
    (auth : Option SocketAuth) (payload : JoinPayload) (now : Nat)
    (rid : String) (room : SigRoom) (oldP : Participant)
    (hA : ¬ (authRequired ∧ auth = none))
    (hrid : sanitizeText payload.roomId "" = rid) (hne : rid ≠ "")
    (hroom : lookupAL st.rooms rid = some room)
    (_hold : lookupAL room.participants socketId = some oldP) :
    lookupAL ((lookupAL (roomJoin st socketId authRequired auth payload now).state.rooms
        rid).getD emptySigRoom).participants socketId
      = some { userId := joinUserId auth payload socketId,
               socketId := socketId,
               displayName := joinDisplayName auth payload
                 (joinUserId auth payload socketId),
               role := sanitizeRole payload.role,
               raisedHand := false, joinedAt := now, producerIds := [] } := by
  simp [roomJoin, hA, hrid, hne, getRoomState, hroom, lookupAL_setAL_self]

def demoRejoinState : SigState := demoSigState

theorem c10_rejoin_resets_witness :
    (¬ (false = true ∧ (none : Option SocketAuth) = none) ∧
     sanitizeText demoJoinPayload.roomId "" = "r1" ∧ "r1" ≠ "" ∧
     lookupAL demoRejoinState.rooms "r1" = some demoSigRoom ∧
     lookupAL demoSigRoom.participants "s1" = some demoParticipant) ∧
    lookupAL ((lookupAL (roomJoin demoRejoinState "s1" false none demoJoinPayload
        44).state.rooms "r1").getD emptySigRoom).participants "s1"
      = some { userId := joinUserId none demoJoinPayload "s1",
               socketId := "s1",
               displayName := joinDisplayName none demoJoinPayload
                 (joinUserId none demoJoinPayload "s1"),
               role := sanitizeRole demoJoinPayload.role,
               raisedHand := false, joinedAt := 44, producerIds := [] } :=
  ⟨⟨by decide, by decide, by decide, by decide, by decide⟩,
   c10_rejoin_resets demoRejoinState "s1" false none demoJoinPayload 44 "r1"
     demoSigRoom demoParticipant (by decide) (by decide) (by decide) (by decide)
     (by decide)⟩
